import Mathlib

/-
Verification development for the superbryn appointment-booking backend.

The embedding models, in order:
  * the data model of src/db/schema.sql (users, appointments,
    conversation_summaries, with the appointments CHECK and UNIQUE
    constraints and NOT NULL / foreign key checks on inserts);
  * the query layer of src/db/queries.ts (createOrUpdateUser,
    createAppointment, getAppointments, cancelAppointment,
    modifyAppointment, saveConversationSummary);
  * the slot catalog of src/config/slots.ts;
  * the tool dispatcher of src/services/tools.ts (costTracker, addCost,
    getTotalCost, executeTool);
  * the summary generator of src/services/summary.ts (generateSummary,
    extractPreferences); and
  * the per-session orchestration loop of src/agent/agent.ts
    (AppointmentAgent.processUserMessage, generateAndEmitSummary).

Conventions: SQL TIMESTAMP values are modelled as Nat clock values passed
in explicitly (the code uses CURRENT_TIMESTAMP); JavaScript numbers are
modelled as Rat; a JavaScript value that can be undefined is an Option;
JavaScript truthiness on strings (undefined and the empty string are
falsy) is modelled by jsTruthy.  External collaborators (the chat model
and the summarizer) are modelled as scripted inputs: each call consumes
the next scripted response, and a response of Except.error models a
collaborator failure (the corresponding JavaScript promise rejecting).
-/

namespace SuperBryn

/-- Appointment status values, from the CHECK constraint in schema.sql. -/
inductive Status where
  | confirmed
  | cancelled
  | completed
deriving DecidableEq

/-- Rendering of a status to its SQL string value. -/
def statusStr : Status → String
  | Status.confirmed => "confirmed"
  | Status.cancelled => "cancelled"
  | Status.completed => "completed"

/-- Row of the users table. -/
structure User where
  contact_number : String
  name : Option String
  email : Option String
  created_at : Nat
  updated_at : Nat
deriving DecidableEq

/-- Row of the appointments table. -/
structure Appointment where
  id : Nat
  contact_number : String
  appointment_date : String
  appointment_time : String
  service_type : Option String
  notes : Option String
  status : Status
  created_at : Nat
  updated_at : Nat
deriving DecidableEq

/-- Preferences extracted by extractPreferences in summary.ts. -/
structure Preferences where
  time_preference : Option String := none
  priority : Option String := none
deriving DecidableEq

/-- Cost ledger entry (CostBreakdown in tools.ts). -/
structure CostBreakdown where
  service : String
  cost : Rat
  unit : String
deriving DecidableEq

/-- View of an appointment as returned inside a tool result envelope
(the object literals built in executeTool); fields that a given tool
does not include stay none, mirroring absent JavaScript object fields. -/
structure ApptView where
  id : Nat
  date : String
  time : String
  service_type : Option String := none
  status : Option String := none
  notes : Option String := none
deriving DecidableEq

/-- Row of the conversation_summaries table.  The JSONB columns hold the
structured values directly; their JSON serialization is immaterial to
every claim verified here. -/
structure SummaryRow where
  contact_number : String
  session_id : String
  summary : String
  booked_appointments : List (Option ApptView)
  user_preferences : Preferences
  cost_total : Rat
  cost_breakdown : List CostBreakdown
  created_at : Nat
deriving DecidableEq

/-- State of the backing database. nextApptId models the SERIAL id
sequence of the appointments table. -/
structure Db where
  users : List User
  appointments : List Appointment
  nextApptId : Nat
  summaries : List SummaryRow
deriving DecidableEq

/-- JavaScript truthiness of an optional string: undefined and the empty
string are falsy. -/
def jsTruthy : Option String → Bool
  | none => false
  | some s => !s.isEmpty

/-- Models the JavaScript expression `x || null` applied to an optional
string argument before it is passed as a SQL parameter. -/
def orNull (o : Option String) : Option String :=
  if jsTruthy o then o else none

/-- SQL COALESCE on two nullable strings. -/
def coalesce (a b : Option String) : Option String :=
  match a with
  | some v => some v
  | none => b

/-- createOrUpdateUser from queries.ts: INSERT ... ON CONFLICT
(contact_number) DO UPDATE SET name = COALESCE(EXCLUDED.name, users.name),
email = COALESCE(EXCLUDED.email, users.email), updated_at = now.
A missing contact number violates the primary key NOT NULL constraint. -/
def createOrUpdateUser (contact name email : Option String) (now : Nat)
    (db : Db) : Except String (User × Db) :=
  match contact with
  | none => Except.error "null value in column contact_number violates not-null constraint"
  | some c =>
    let n := orNull name
    let e := orNull email
    match db.users.find? (fun u => u.contact_number = c) with
    | some u0 =>
      let upd := fun (u : User) =>
        if u.contact_number = c then
          { u with name := coalesce n u.name, email := coalesce e u.email,
                   updated_at := now }
        else u
      Except.ok (upd u0, { db with users := db.users.map upd })
    | none =>
      let u : User := ⟨c, n, e, now, now⟩
      Except.ok (u, { db with users := db.users ++ [u] })

/-- Conflict pre-check of createAppointment: SELECT appointments WHERE
appointment_date = $1 AND appointment_time = $2 AND status = confirmed.
A NULL parameter matches no row (SQL three-valued comparison). -/
def conflictCheck (d t : Option String) (db : Db) : Bool :=
  db.appointments.any (fun r =>
    decide (some r.appointment_date = d ∧ some r.appointment_time = t ∧
      r.status = Status.confirmed))

/-- createAppointment from queries.ts: conflict pre-check, then INSERT of
a confirmed appointment.  The insert itself enforces the schema NOT NULL
constraints, the foreign key to users, and the
UNIQUE(contact_number, appointment_date, appointment_time, status)
constraint of schema.sql. -/
def createAppointment (contact d t svc notes : Option String) (now : Nat)
    (db : Db) : Except String (Appointment × Db) :=
  if conflictCheck d t db then
    Except.error "Appointment slot already booked"
  else
    match contact, d, t with
    | some c, some dv, some tv =>
      if db.users.all (fun u => u.contact_number ≠ c) then
        Except.error "insert violates foreign key constraint on contact_number"
      else if db.appointments.any (fun r =>
          decide (r.contact_number = c ∧ r.appointment_date = dv ∧
            r.appointment_time = tv ∧ r.status = Status.confirmed)) then
        Except.error "duplicate key value violates unique constraint"
      else
        let a : Appointment :=
          ⟨db.nextApptId, c, dv, tv, orNull svc, orNull notes,
            Status.confirmed, now, now⟩
        Except.ok (a, { db with appointments := db.appointments ++ [a],
                                nextApptId := db.nextApptId + 1 })
    | _, _, _ => Except.error "null value violates not-null constraint"

/-- Descending (date, time) order used by getAppointments
(ORDER BY appointment_date DESC, appointment_time DESC). -/
def apptDescLe (a b : Appointment) : Bool :=
  if a.appointment_date = b.appointment_date then
    decide (b.appointment_time ≤ a.appointment_time)
  else decide (b.appointment_date < a.appointment_date)

/-- Insertion into a list sorted by apptDescLe. -/
def insertDesc (a : Appointment) : List Appointment → List Appointment
  | [] => [a]
  | b :: rest => if apptDescLe a b then a :: b :: rest else b :: insertDesc a rest

/-- Insertion sort by apptDescLe, modelling the query ORDER BY clause. -/
def sortDesc : List Appointment → List Appointment
  | [] => []
  | a :: rest => insertDesc a (sortDesc rest)

/-- getAppointments from queries.ts: SELECT by contact, optionally
filtered by status (the filter is added only when the status argument is
truthy), ordered by date then time descending. -/
def getAppointments (contact status : Option String) (db : Db) :
    List Appointment :=
  let base := db.appointments.filter (fun r =>
    decide (some r.contact_number = contact))
  let filtered :=
    if jsTruthy status then
      base.filter (fun r => decide (some (statusStr r.status) = status))
    else base
  sortDesc filtered

/-- Row match of the cancelAppointment UPDATE:
WHERE id = $1 AND contact_number = $2 (NULL parameters match no row).
The query has no filter on the current status. -/
def cancelMatches (appointmentId : Option Nat) (contact : Option String)
    (r : Appointment) : Bool :=
  decide (some r.id = appointmentId ∧ some r.contact_number = contact)

/-- cancelAppointment from queries.ts: UPDATE status to cancelled for the
matching row and return it, or return none when no row matches. -/
def cancelAppointment (appointmentId : Option Nat) (contact : Option String)
    (now : Nat) (db : Db) : Option Appointment × Db :=
  match db.appointments.find? (cancelMatches appointmentId contact) with
  | some r0 =>
    (some { r0 with status := Status.cancelled, updated_at := now },
     { db with appointments := db.appointments.map (fun r =>
         if cancelMatches appointmentId contact r then
           { r with status := Status.cancelled, updated_at := now }
         else r) })
  | none => (none, db)

/-- Conflict check of modifyAppointment, executed only when both a new
date and a new time are supplied: SELECT appointments WHERE
appointment_date = $1 AND appointment_time = $2 AND status = confirmed
AND id != $3.  A NULL id parameter makes id != $3 match no row. -/
def modifyConflictCheck (newDate newTime : Option String)
    (appointmentId : Option Nat) (db : Db) : Bool :=
  db.appointments.any (fun r =>
    decide (some r.appointment_date = newDate ∧
      some r.appointment_time = newTime ∧ r.status = Status.confirmed) &&
    (match appointmentId with
     | some i => decide (r.id ≠ i)
     | none => false))

/-- Field update applied by the modifyAppointment UPDATE: each truthy
supplied field overwrites, updated_at is always set. -/
def modifyUpdate (newDate newTime : Option String) (now : Nat)
    (r : Appointment) : Appointment :=
  { r with
    appointment_date :=
      if jsTruthy newDate then newDate.getD r.appointment_date
      else r.appointment_date,
    appointment_time :=
      if jsTruthy newTime then newTime.getD r.appointment_time
      else r.appointment_time,
    updated_at := now }

/-- modifyAppointment from queries.ts: conflict-check only when both
fields are truthy, error when neither field is truthy, then UPDATE the
row matching id and contact_number and return it (none when no match). -/
def modifyAppointment (appointmentId : Option Nat) (contact : Option String)
    (newDate newTime : Option String) (now : Nat) (db : Db) :
    Except String (Option Appointment × Db) :=
  if jsTruthy newDate && jsTruthy newTime then
    if modifyConflictCheck newDate newTime appointmentId db then
      Except.error "New appointment slot already booked"
    else
      Except.ok (modifyApply appointmentId contact newDate newTime now db)
  else if !(jsTruthy newDate) && !(jsTruthy newTime) then
    Except.error "No fields to update"
  else
    Except.ok (modifyApply appointmentId contact newDate newTime now db)
where
  modifyApply (appointmentId : Option Nat) (contact : Option String)
      (newDate newTime : Option String) (now : Nat) (db : Db) :
      Option Appointment × Db :=
    match db.appointments.find? (cancelMatches appointmentId contact) with
    | some r0 =>
      (some (modifyUpdate newDate newTime now r0),
       { db with appointments := db.appointments.map (fun r =>
           if cancelMatches appointmentId contact r then
             modifyUpdate newDate newTime now r
           else r) })
    | none => (none, db)

/-- saveConversationSummary from queries.ts: INSERT into
conversation_summaries; the foreign key to users must hold. -/
def saveConversationSummary (contact sessionId summary : String)
    (booked : List (Option ApptView)) (prefs : Preferences)
    (costTotal : Rat) (costBreakdown : List CostBreakdown) (now : Nat)
    (db : Db) : Except String (SummaryRow × Db) :=
  if db.users.all (fun u => u.contact_number ≠ contact) then
    Except.error "insert violates foreign key constraint on contact_number"
  else
    let row : SummaryRow :=
      ⟨contact, sessionId, summary, booked, prefs, costTotal, costBreakdown,
        now⟩
    Except.ok (row, { db with summaries := db.summaries ++ [row] })

/-- Slot of the hard-coded calendar in config/slots.ts. -/
structure Slot where
  date : String
  time : String
  available : Bool
deriving DecidableEq

/-- AVAILABLE_SLOTS from config/slots.ts. -/
def AVAILABLE_SLOTS : List Slot :=
  [⟨"2024-01-15", "09:00", true⟩, ⟨"2024-01-15", "10:00", true⟩,
   ⟨"2024-01-15", "11:00", true⟩, ⟨"2024-01-15", "14:00", true⟩,
   ⟨"2024-01-15", "15:00", true⟩, ⟨"2024-01-16", "09:00", true⟩,
   ⟨"2024-01-16", "10:00", true⟩, ⟨"2024-01-16", "11:00", true⟩,
   ⟨"2024-01-16", "14:00", true⟩, ⟨"2024-01-16", "15:00", true⟩,
   ⟨"2024-01-17", "09:00", true⟩, ⟨"2024-01-17", "10:00", true⟩,
   ⟨"2024-01-17", "11:00", true⟩, ⟨"2024-01-17", "14:00", true⟩,
   ⟨"2024-01-17", "15:00", true⟩]

/-- getAvailableSlots from config/slots.ts: filter by date when the date
argument is truthy, keep only available slots. -/
def getAvailableSlots (date : Option String) : List Slot :=
  if jsTruthy date then
    AVAILABLE_SLOTS.filter (fun s =>
      decide (some s.date = date) && s.available)
  else
    AVAILABLE_SLOTS.filter (fun s => s.available)

/-- Slot projection returned by the fetch_slots tool
(slots.map(s =\x7b date, time \x7d) in executeTool). -/
structure SlotView where
  date : String
  time : String
deriving DecidableEq

/-- Argument bag of a tool call.  The model hands the dispatcher a parsed
JSON object; every field the catalog mentions is optional here because
the dispatcher reads them without validation. -/
structure Args where
  contact_number : Option String := none
  name : Option String := none
  email : Option String := none
  date : Option String := none
  appointment_date : Option String := none
  appointment_time : Option String := none
  service_type : Option String := none
  notes : Option String := none
  status : Option String := none
  appointment_id : Option Nat := none
  new_date : Option String := none
  new_time : Option String := none
deriving DecidableEq

/-- Tool call request (name plus argument bag), as in tools.ts. -/
structure ToolCall where
  name : String
  arguments : Args
deriving DecidableEq

/-- Uniform result envelope produced by executeTool.  Fields absent from
a given JavaScript object literal stay none. -/
structure ToolResult where
  success : Bool
  message : Option String := none
  error : Option String := none
  user : Option User := none
  slots : Option (List SlotView) := none
  count : Option Nat := none
  appointment : Option ApptView := none
  appointments : Option (List ApptView) := none
deriving DecidableEq

/-- Combined mutable state that executeTool touches: the database (via
the query layer) and the module-level costTracker array of tools.ts. -/
structure SysState where
  db : Db
  costTracker : List CostBreakdown
deriving DecidableEq

/-- addCost from tools.ts: push one entry onto the cost ledger. -/
def addCost (service : String) (cost : Rat) (u : String) (st : SysState) :
    SysState :=
  { st with costTracker := st.costTracker ++ [⟨service, cost, u⟩] }

/-- getTotalCost from tools.ts: reduce over the ledger summing costs. -/
def getTotalCost (cs : List CostBreakdown) : Rat :=
  cs.foldl (fun sum item => sum + item.cost) 0

/-- Rendering of an optional string for template interpolation
(JavaScript renders undefined as the string undefined). -/
def optStr (o : Option String) : String := o.getD "undefined"

/-- Body of the try block of executeTool from tools.ts.  The first
component is the thrown error (Except.error) or the returned envelope
(Except.ok); the second is the state after the mutations performed up to
the return or throw point (each case appends its cost entry before
calling the query layer, so the entry survives a failure). -/
def executeToolAttempt (tc : ToolCall) (now : Nat) (st : SysState) :
    Except String ToolResult × SysState :=
  let args := tc.arguments
  match tc.name with
  | "identify_user" =>
    let st1 := addCost "identify_user" (1 / 1000 : Rat) "call" st
    match createOrUpdateUser args.contact_number args.name args.email now
        st1.db with
    | Except.error e => (Except.error e, st1)
    | Except.ok (user, db') =>
      (Except.ok { success := true,
                   message := some ("User identified: " ++
                     optStr args.contact_number),
                   user := some user },
       { st1 with db := db' })
  | "fetch_slots" =>
    let st1 := addCost "fetch_slots" (1 / 1000 : Rat) "call" st
    let slots := getAvailableSlots args.date
    (Except.ok { success := true,
                 slots := some (slots.map (fun s => ⟨s.date, s.time⟩)),
                 count := some slots.length }, st1)
  | "book_appointment" =>
    let st1 := addCost "book_appointment" (1 / 500 : Rat) "call" st
    match createAppointment args.contact_number args.appointment_date
        args.appointment_time args.service_type args.notes now st1.db with
    | Except.error e => (Except.error e, st1)
    | Except.ok (a, db') =>
      (Except.ok { success := true,
                   message := some "Appointment booked successfully",
                   appointment := some ⟨a.id, a.appointment_date,
                     a.appointment_time, a.service_type, none, none⟩ },
       { st1 with db := db' })
  | "retrieve_appointments" =>
    let st1 := addCost "retrieve_appointments" (1 / 1000 : Rat) "call" st
    let appts := getAppointments args.contact_number args.status st1.db
    (Except.ok { success := true,
                 appointments := some (appts.map (fun a =>
                   ⟨a.id, a.appointment_date, a.appointment_time,
                     a.service_type, some (statusStr a.status), a.notes⟩)),
                 count := some appts.length }, st1)
  | "cancel_appointment" =>
    let st1 := addCost "cancel_appointment" (1 / 500 : Rat) "call" st
    match cancelAppointment args.appointment_id args.contact_number now
        st1.db with
    | (none, db') =>
      (Except.error "Appointment not found or already cancelled",
       { st1 with db := db' })
    | (some a, db') =>
      (Except.ok { success := true,
                   message := some "Appointment cancelled successfully",
                   appointment := some ⟨a.id, a.appointment_date,
                     a.appointment_time, none, none, none⟩ },
       { st1 with db := db' })
  | "modify_appointment" =>
    let st1 := addCost "modify_appointment" (1 / 500 : Rat) "call" st
    match modifyAppointment args.appointment_id args.contact_number
        args.new_date args.new_time now st1.db with
    | Except.error e => (Except.error e, st1)
    | Except.ok (none, db') =>
      (Except.error "Appointment not found", { st1 with db := db' })
    | Except.ok (some a, db') =>
      (Except.ok { success := true,
                   message := some "Appointment modified successfully",
                   appointment := some ⟨a.id, a.appointment_date,
                     a.appointment_time, none, none, none⟩ },
       { st1 with db := db' })
  | "end_conversation" =>
    let st1 := addCost "end_conversation" (1 / 1000 : Rat) "call" st
    (Except.ok { success := true, message := some "Conversation ended" }, st1)
  | other => (Except.error ("Unknown tool: " ++ other), st)

/-- executeTool from tools.ts: run the try block and convert any thrown
error into the uniform failure envelope at the catch boundary. -/
def executeTool (tc : ToolCall) (now : Nat) (st : SysState) :
    ToolResult × SysState :=
  match executeToolAttempt tc now st with
  | (Except.ok r, st') => (r, st')
  | (Except.error e, st') => ({ success := false, error := some e }, st')

deriving instance DecidableEq for Except

/-- ConversationMessage from summary.ts (role and string content). -/
structure ConvMsg where
  role : String
  content : String
deriving DecidableEq

/-- Substring containment test, modelling JavaScript String.includes:
for a nonempty pattern, splitOn yields more than one piece exactly when
the pattern occurs in the string. -/
def strIncludes (s pat : String) : Bool :=
  (s.splitOn pat).length != 1

/-- extractPreferences from summary.ts: keyword matching over the
user-authored turns, lower-cased and joined with spaces. -/
def extractPreferences (messages : List ConvMsg) : Preferences :=
  let text := (String.intercalate " "
    ((messages.filter (fun m => m.role = "user")).map
      (fun m => m.content))).toLower
  let p0 : Preferences := {}
  let p1 := if strIncludes text "morning" || strIncludes text "am" then
    { p0 with time_preference := some "morning" } else p0
  let p2 := if strIncludes text "afternoon" || strIncludes text "pm" then
    { p1 with time_preference := some "afternoon" } else p1
  if strIncludes text "urgent" || strIncludes text "asap" then
    { p2 with priority := some "urgent" } else p2

/-- Rendering of an optional string field for the plain-text
serializations below. -/
def optField (label : String) (o : Option String) : String :=
  match o with
  | some s => ", " ++ label ++ ": " ++ s
  | none => ""

/-- Plain-text rendering of an appointment view.  It models the
JSON.stringify output used in summary.ts and agent.ts; the exact
formatting is immaterial to every claim verified here (only the length
of the text feeds the modelled token-cost arithmetic). -/
def apptViewText (a : ApptView) : String :=
  "id: " ++ toString a.id ++ ", date: " ++ a.date ++ ", time: " ++ a.time ++
    optField "service_type" a.service_type ++ optField "status" a.status ++
    optField "notes" a.notes

/-- Plain-text rendering of the booked-appointments list
(JSON.stringify(bookedAppointments, null, 2) in summary.ts). -/
def bookedText (booked : List (Option ApptView)) : String :=
  String.intercalate "\n" (booked.map (fun b =>
    match b with
    | some a => apptViewText a
    | none => "null"))

/-- Summarization prompt assembled by generateSummary in summary.ts. -/
def summaryPrompt (conversationText bookedAppointmentsText : String) :
    String :=
  "Generate a concise summary of this conversation with a customer service AI agent. \nInclude:\n1. Main topics discussed\n2. Customer requests\n3. Actions taken (appointments booked, retrieved, cancelled, etc.)\n4. Any important details mentioned by the customer\n\nConversation:\n" ++
    conversationText ++ "\n\nBooked Appointments:\n" ++
    bookedAppointmentsText ++
    "\n\nKeep the summary under 200 words and be specific about dates, times, and actions taken."

/-- Scripted response of the summarization collaborator: the optional
message content of the first choice together with usage completion
tokens, or a failure.  The outer Option models a call for which no
response was scripted, treated as a failure as well. -/
abbrev SummarizerResponse := Option (Except String (Option String × Nat))

/-- generateSummary from summary.ts.  The try block builds the
conversation text, extracts preferences, bills the prompt tokens, calls
the summarization collaborator, bills its output tokens, persists the
summary row, and returns the digest; any failure (of the collaborator or
of the INSERT) is caught and replaced by the fixed placeholder digest
without any further action. -/
def generateSummary (messages : List ConvMsg)
    (contactNumber sessionId : String) (booked : List (Option ApptView))
    (collab : SummarizerResponse) (now : Nat) (st : SysState) :
    String × SysState :=
  let conversationText := String.intercalate "\n"
    ((messages.filter (fun m => m.role ≠ "system")).map (fun m =>
      if m.role = "tool" then "Tool: " ++ m.content
      else m.role ++ ": " ++ m.content))
  let userPreferences := extractPreferences messages
  let prompt := summaryPrompt conversationText (bookedText booked)
  let summaryInputTokens : Rat := (prompt.length : Rat) / 4
  let st1 := addCost "openai_summary"
    (summaryInputTokens / 1000 * (1 / 100 : Rat)) "1k_tokens" st
  match collab with
  | some (Except.ok (content, completionTokens)) =>
    let st2 := addCost "openai_summary_output"
      ((completionTokens : Rat) / 1000 * (3 / 100 : Rat)) "1k_tokens" st1
    let summary :=
      match content with
      | some s => if s.isEmpty then "No summary generated." else s
      | none => "No summary generated."
    let costBreakdown := st2.costTracker.map (fun item =>
      (⟨item.service, item.cost, item.unit⟩ : CostBreakdown))
    match saveConversationSummary contactNumber sessionId summary booked
        userPreferences (getTotalCost st2.costTracker) costBreakdown now
        st2.db with
    | Except.ok (_, db') => (summary, { st2 with db := db' })
    | Except.error _ =>
      ("Summary generation failed. Conversation details saved.", st2)
  | _ => ("Summary generation failed. Conversation details saved.", st1)

/-- Transcript entry of the agent session (role plus nullable content),
from the messages array of AgentState in agent.ts.  Tool-call metadata
carried by assistant messages is dropped: only the content contributes
to the modelled token counting and to the summary transcript. -/
structure AgentMsg where
  role : String
  content : Option String
deriving DecidableEq

/-- Executed tool call record kept in AgentState.toolCalls. -/
structure ToolCallRec where
  name : String
  arguments : Args
  result : ToolResult
deriving DecidableEq

/-- AgentState from agent.ts. -/
structure AgentState where
  contactNumber : Option String
  sessionId : String
  messages : List AgentMsg
  toolCalls : List ToolCallRec
  bookedAppointments : List (Option ApptView)
  conversationEnded : Bool
deriving DecidableEq

/-- System message installed by the AppointmentAgent constructor. -/
def systemPrompt : String :=
  "You are a friendly AI assistant helping users book appointments. \nBe conversational, helpful, and concise. Always confirm appointment details before booking.\nWhen booking appointments, extract dates in YYYY-MM-DD format and times in HH:MM format (24-hour).\nUse the available tools to help users."

/-- Initial agent state built by the AppointmentAgent constructor. -/
def initialAgentState (sessionId : String) : AgentState :=
  { contactNumber := none, sessionId, messages := [⟨"system", some systemPrompt⟩],
    toolCalls := [], bookedAppointments := [], conversationEnded := false }

/-- Whole-session state: the agent state, the shared database and cost
ledger, the scripted summarizer responses still unconsumed, and an
instrumentation counter recording how many times the Summary Finalizer
(generateAndEmitSummary) has been invoked. -/
structure World where
  agent : AgentState
  sys : SysState
  summarizerQueue : List SummarizerResponse
  finalizerCalls : Nat
deriving DecidableEq

/-- addCost lifted to the whole-session state. -/
def addCostW (service : String) (cost : Rat) (u : String) (w : World) :
    World :=
  { w with sys := addCost service cost u w.sys }

/-- Token estimate of the transcript used before each chat call:
messages.reduce((sum, m) => sum + (m.content?.length || 0) / 4, 0). -/
def inputTokensOf (msgs : List AgentMsg) : Rat :=
  msgs.foldl (fun sum m =>
    sum + (((m.content.map String.length).getD 0 : Nat) : Rat) / 4) 0

/-- Content of an agent transcript message as it is mapped into a
summary ConversationMessage: string content passes through, null
content becomes JSON.stringify of the empty string. -/
def summaryContent (o : Option String) : String :=
  match o with
  | some s => s
  | none => "\x22\x22"

/-- generateAndEmitSummary from agent.ts, instrumented with the
invocation counter.  Without a resolved contact number it is a no-op;
otherwise it maps the transcript into summary messages, consumes the
next scripted summarizer response, runs generateSummary, and emits the
result (the emission itself has no model state). -/
def generateAndEmitSummary (now : Nat) (w : World) : World :=
  let w1 := { w with finalizerCalls := w.finalizerCalls + 1 }
  match w1.agent.contactNumber with
  | none => w1
  | some contact =>
    let msgs := (w1.agent.messages.filter (fun m =>
        m.role = "user" || m.role = "assistant" || m.role = "system" ||
          m.role = "tool")).map (fun m =>
      (⟨m.role, summaryContent m.content⟩ : ConvMsg))
    let collab := w1.summarizerQueue.headD none
    let out := generateSummary msgs contact w1.agent.sessionId
      w1.agent.bookedAppointments collab now w1.sys
    { w1 with sys := out.2, summarizerQueue := w1.summarizerQueue.tail }

/-- Tool call requested by the chat model (name plus parsed argument
object). -/
structure ModelToolCallReq where
  name : String
  args : Args
deriving DecidableEq

/-- Message of the first choice of a chat completion. -/
structure ModelMessage where
  content : Option String
  tool_calls : List ModelToolCallReq
deriving DecidableEq

/-- Scripted chat completion: the optional first-choice message and the
usage completion tokens. -/
structure ModelResponse where
  message : Option ModelMessage
  outputTokens : Nat
deriving DecidableEq

/-- Scripted collaborator behaviour for one processUserMessage turn: the
initial chat completion (or its failure), and the follow-up completions
consumed one per executed tool call (a missing or failed entry models a
rejected follow-up call, caught by the catch block of
processUserMessage). -/
structure TurnInput where
  response : Except String ModelResponse
  followUps : List (Except String (Option String × Nat))
deriving DecidableEq

/-- Fixed reply of processUserMessage once the session has ended. -/
def endedReply : String := "The conversation has ended. Thank you!"

/-- Fixed reply produced by the catch block of processUserMessage. -/
def apologyReply : String :=
  "I apologize, but I encountered an error. Please try again."

/-- Tool-call loop of processUserMessage: dispatch each requested tool,
record it, fold its result into the session fields (resolved contact on
successful identify_user, booked appointment on successful
book_appointment, terminal flag and Summary Finalizer on
end_conversation), append the tool-call and tool-result transcript
entries, bill and consult the model for a follow-up, and carry the
running assistant response.  A failing follow-up call aborts the loop
with the caught-error reply while keeping all mutations so far. -/
def runToolCalls (now : Nat) :
    List ModelToolCallReq → List (Except String (Option String × Nat)) →
    String → World → Except (String × World) (String × World)
  | [], _, resp, w => Except.ok (resp, w)
  | tc :: rest, fus, resp, w =>
    let out := executeTool ⟨tc.name, tc.args⟩ now w.sys
    let res := out.1
    let ag1 := { w.agent with
      toolCalls := w.agent.toolCalls ++ [⟨tc.name, tc.args, res⟩] }
    let w1 := { w with sys := out.2, agent := ag1 }
    let w2 :=
      if tc.name = "identify_user" then
        if res.success then
          { w1 with agent :=
              { w1.agent with contactNumber := tc.args.contact_number } }
        else w1
      else if tc.name = "book_appointment" then
        if res.success then
          { w1 with agent :=
              { w1.agent with bookedAppointments :=
                  w1.agent.bookedAppointments ++ [res.appointment] } }
        else w1
      else if tc.name = "end_conversation" then
        generateAndEmitSummary now
          { w1 with agent := { w1.agent with conversationEnded := true } }
      else w1
    let w3 := { w2 with agent := { w2.agent with messages :=
      w2.agent.messages ++
        [⟨"assistant", none⟩,
         ⟨"tool", some ("success: " ++ (if res.success then "true" else "false") ++
           optField "message" res.message ++ optField "error" res.error)⟩] } }
    let w4 := addCostW "openai_chat"
      (inputTokensOf w3.agent.messages / 1000 * (1 / 100 : Rat)) "1k_tokens" w3
    match fus with
    | [] => Except.error (apologyReply, w4)
    | fu :: fus' =>
      match fu with
      | Except.error _ => Except.error (apologyReply, w4)
      | Except.ok (content, completionTokens) =>
        let w5 := addCostW "openai_chat_output"
          ((completionTokens : Rat) / 1000 * (3 / 100 : Rat)) "1k_tokens" w4
        let resp' :=
          match content with
          | some s => if s.isEmpty then resp else s
          | none => resp
        runToolCalls now rest fus' resp' w5

/-- processUserMessage from agent.ts: reject the turn outright once the
session has ended; otherwise append the user message, bill and consult
the chat model, run the requested tool calls, append the assistant
reply, and return it.  Any failure inside the try block is caught and
replaced by the apology reply, keeping the mutations made so far. -/
def processUserMessage (transcript : String) (input : TurnInput)
    (now : Nat) (w : World) : String × World :=
  if w.agent.conversationEnded then (endedReply, w)
  else
    let w0 := { w with agent := { w.agent with messages :=
      w.agent.messages ++ [⟨"user", some transcript⟩] } }
    let w1 := addCostW "openai_chat"
      (inputTokensOf w0.agent.messages / 1000 * (1 / 100 : Rat))
      "1k_tokens" w0
    match input.response with
    | Except.error _ => (apologyReply, w1)
    | Except.ok resp =>
      let w2 := addCostW "openai_chat_output"
        ((resp.outputTokens : Rat) / 1000 * (3 / 100 : Rat)) "1k_tokens" w1
      match resp.message with
      | none => ("I apologize, but I could not generate a response.", w2)
      | some msg =>
        let assistantResponse := msg.content.getD ""
        match runToolCalls now msg.tool_calls input.followUps
            assistantResponse w2 with
        | Except.error out => out
        | Except.ok (finalResponse, w3) =>
          (finalResponse,
           { w3 with agent := { w3.agent with messages :=
               w3.agent.messages ++ [⟨"assistant", some finalResponse⟩] } })

/-- Confirmed appointments currently stored at a given (date, time). -/
def confirmedAt (d t : String) (db : Db) : List Appointment :=
  db.appointments.filter (fun r =>
    decide (r.appointment_date = d ∧ r.appointment_time = t ∧
      r.status = Status.confirmed))

/-- Central slot-exclusivity invariant: at most one confirmed
appointment per (date, time) pair. -/
def SlotInvariant (db : Db) : Prop :=
  ∀ d t, (confirmedAt d t db).length ≤ 1

/-- Boolean test for the presence of a confirmed appointment at a
(date, time) pair. -/
def hasConfirmedAt (d t : String) (db : Db) : Bool :=
  db.appointments.any (fun r =>
    decide (r.appointment_date = d ∧ r.appointment_time = t ∧
      r.status = Status.confirmed))

/-- Arguments of one book_appointment call in a call sequence. -/
structure BookCall where
  contact : Option String
  date : Option String
  time : Option String
  service_type : Option String
  notes : Option String
  now : Nat
deriving DecidableEq

/-- Fold of a sequence of createAppointment calls over the store,
counting how many calls aimed at the fixed slot (d, t) succeed.  A
failing call leaves the store untouched (the query layer returned an
error before any insert). -/
def runBooksCount (d t : String) : List BookCall → Db → Nat × Db
  | [], db => (0, db)
  | c :: rest, db =>
    match createAppointment c.contact c.date c.time c.service_type c.notes
        c.now db with
    | Except.ok (_, db') =>
      let out := runBooksCount d t rest db'
      (if c.date = some d ∧ c.time = some t then out.1 + 1 else out.1, out.2)
    | Except.error _ => runBooksCount d t rest db

/-- Identity-relevant projection of an appointment row: its id and
status. -/
def statusKey (r : Appointment) : Nat × Status := (r.id, r.status)

/-- Identity-relevant projection of a user row: everything except the
timestamps. -/
def userFields (u : User) : String × Option String × Option String :=
  (u.contact_number, u.name, u.email)

/-- Catalog of operation names declared in toolDefinitions. -/
def catalogNames : List String :=
  ["identify_user", "fetch_slots", "book_appointment",
   "retrieve_appointments", "cancel_appointment", "modify_appointment",
   "end_conversation"]

/-- Cost billed per dispatch of each cataloged operation in
executeTool. -/
def toolCost (n : String) : Rat :=
  if n = "book_appointment" ∨ n = "cancel_appointment" ∨
      n = "modify_appointment" then (1 / 500 : Rat)
  else (1 / 1000 : Rat)

/-- Empty database with the id sequence at 1. -/
def dbEmpty : Db := ⟨[], [], 1, []⟩

/-- Database with one identified user and no appointments. -/
def dbUserA : Db := ⟨[⟨"a", none, none, 0, 0⟩], [], 1, []⟩

/-- Database with two users holding confirmed appointments at distinct
slots sharing the time 09:00. -/
def dbTwoConfirmed : Db :=
  ⟨[⟨"a", none, none, 0, 0⟩, ⟨"b", none, none, 0, 0⟩],
   [⟨1, "a", "2024-01-15", "09:00", none, none, Status.confirmed, 0, 0⟩,
    ⟨2, "b", "2024-01-16", "09:00", none, none, Status.confirmed, 0, 0⟩],
   3, []⟩

/-- Database whose only appointment is already cancelled. -/
def dbCancelled : Db :=
  ⟨[⟨"c", none, none, 0, 0⟩],
   [⟨1, "c", "2024-01-15", "09:00", none, none, Status.cancelled, 0, 0⟩],
   2, []⟩

/-- Database whose only appointment is completed. -/
def dbCompleted : Db :=
  ⟨[⟨"c", none, none, 0, 0⟩],
   [⟨1, "c", "2024-01-15", "09:00", none, none, Status.completed, 0, 0⟩],
   2, []⟩

/-- Database with one user owning two appointments, one confirmed and
one cancelled on different dates. -/
def dbUserStored : Db :=
  ⟨[⟨"c", some "Dana", some "dana at example.com", 0, 0⟩], [], 1, []⟩

/-- Fresh session world over the empty database with no scripted
summarizer responses. -/
def worldStart : World :=
  ⟨initialAgentState "session-1", ⟨dbEmpty, []⟩, [], 0⟩

/-- Model turn that requests end_conversation twice in one response. -/
def doubleEndInput : TurnInput :=
  ⟨Except.ok ⟨some ⟨some "Goodbye",
      [⟨"end_conversation", {}⟩, ⟨"end_conversation", {}⟩]⟩, 0⟩,
   [Except.ok (some "Bye", 0), Except.ok (some "Bye", 0)]⟩

/-- Modification request that supplies only a new date, aimed at the
second appointment of dbTwoConfirmed and colliding with the first. -/
def singleFieldModifyArgs : Args :=
  { contact_number := some "b", appointment_id := some 2,
    new_date := some "2024-01-15" }

/-- C2 counterexample: a modify_appointment call that supplies only
new_date is applied without any conflict check; aimed at the second
confirmed appointment of dbTwoConfirmed it succeeds and leaves two
confirmed appointments on the same (date, time) pair, so the claim that
every argument combination is conflict-checked fails. -/
theorem modify_single_field_bypasses_conflict :
    (executeTool ⟨"modify_appointment", singleFieldModifyArgs⟩ 1
      ⟨dbTwoConfirmed, []⟩).1.success = true ∧
    (confirmedAt "2024-01-15" "09:00"
      (executeTool ⟨"modify_appointment", singleFieldModifyArgs⟩ 1
        ⟨dbTwoConfirmed, []⟩).2.db).length = 2 := by
  decide

/-- C3: dispatching cancel_appointment against an appointment that is
already cancelled and owned by the caller returns a success envelope,
not the not-found error: the UPDATE of cancelAppointment has no filter
on the current status, so the already-cancelled row matches and is
updated again. -/
theorem cancel_already_cancelled_succeeds :
    (executeTool ⟨"cancel_appointment",
        { contact_number := some "c", appointment_id := some 1 }⟩ 1
      ⟨dbCancelled, []⟩).1.success = true ∧
    (executeTool ⟨"cancel_appointment",
        { contact_number := some "c", appointment_id := some 1 }⟩ 1
      ⟨dbCancelled, []⟩).1.message =
        some "Appointment cancelled successfully" ∧
    (executeTool ⟨"cancel_appointment",
        { contact_number := some "c", appointment_id := some 1 }⟩ 1
      ⟨dbCancelled, []⟩).2.db.appointments =
        [⟨1, "c", "2024-01-15", "09:00", none, none, Status.cancelled, 0, 1⟩] := by
  decide

/-- C4 counterexample: cancel_appointment applied to a completed
appointment owned by the caller succeeds and rewrites its status to
cancelled, so completed is not terminal under cancel_appointment. -/
theorem cancel_completed_sets_cancelled :
    (executeTool ⟨"cancel_appointment",
        { contact_number := some "c", appointment_id := some 1 }⟩ 1
      ⟨dbCompleted, []⟩).1.success = true ∧
    (executeTool ⟨"cancel_appointment",
        { contact_number := some "c", appointment_id := some 1 }⟩ 1
      ⟨dbCompleted, []⟩).2.db.appointments =
        [⟨1, "c", "2024-01-15", "09:00", none, none, Status.cancelled, 0, 1⟩] := by
  decide

/-- C9 counterexample: when the summarization collaborator fails, the
finalizer returns the fixed placeholder digest but persists no
conversation summary at all, refuting the claim that the persistence of
the summary record is still performed. -/
theorem summary_failure_skips_persistence :
    (generateSummary [⟨"user", "book me in"⟩] "c" "s" []
      (some (Except.error "api down")) 0 ⟨dbUserStored, []⟩).1 =
        "Summary generation failed. Conversation details saved." ∧
    (generateSummary [⟨"user", "book me in"⟩] "c" "s" []
      (some (Except.error "api down")) 0 ⟨dbUserStored, []⟩).2.db.summaries =
        [] := by
  decide

/-- C8 counterexample: a single model turn whose response requests
end_conversation twice invokes the Summary Finalizer twice, and the
second end_conversation is dispatched (appending a second cost entry)
after the session was already marked terminal by the first, refuting
both the exactly-once finalization and the no-dispatch-after-termination
parts of the claim. -/
theorem end_conversation_not_terminal_within_turn :
    (processUserMessage "bye" doubleEndInput 0 worldStart).2.finalizerCalls
        = 2 ∧
    ((processUserMessage "bye" doubleEndInput 0
      worldStart).2.sys.costTracker.filter (fun e =>
        e.service = "end_conversation")).length = 2 ∧
    (processUserMessage "bye" doubleEndInput 0
      worldStart).2.agent.conversationEnded = true := by
  decide

/-- C8 (amended): once the session's terminal flag is set, every
subsequently received user message is rejected with the fixed reply and
the whole session state — transcript, tool calls, database, cost ledger
and finalizer count — is left completely unchanged, so no tool dispatch
and no cost entry results. -/
theorem session_terminal_rejects_messages (t : String) (input : TurnInput)
    (now : Nat) (w : World) (h : w.agent.conversationEnded = true) :
    processUserMessage t input now w = (endedReply, w) := by
  unfold processUserMessage
  rw [h]
  simp

/-- Witness for session_terminal_rejects_messages at a concrete ended
world. -/
theorem session_terminal_rejects_messages_witness :
    ((processUserMessage "bye" doubleEndInput 0 worldStart).2).agent.conversationEnded = true ∧
    processUserMessage "hello again" doubleEndInput 1
        (processUserMessage "bye" doubleEndInput 0 worldStart).2 =
      (endedReply, (processUserMessage "bye" doubleEndInput 0 worldStart).2) :=
  ⟨by decide,
   session_terminal_rejects_messages "hello again" doubleEndInput 1
     (processUserMessage "bye" doubleEndInput 0 worldStart).2 (by decide)⟩

/-- C9 (amended): the Summary Finalizer is a strict no-op (beyond the
instrumentation counter) when no contact number was resolved, and a
failure of the summarization collaborator never propagates: the
finalizer returns the fixed placeholder digest and persists nothing,
leaving the database untouched. -/
theorem summary_finalizer_noop_and_fallback :
    (∀ (now : Nat) (w : World), w.agent.contactNumber = none →
        (generateAndEmitSummary now w).sys = w.sys ∧
        (generateAndEmitSummary now w).agent = w.agent ∧
        (generateAndEmitSummary now w).summarizerQueue = w.summarizerQueue) ∧
    (∀ (msgs : List ConvMsg) (c sid : String)
        (booked : List (Option ApptView)) (e : String) (now : Nat)
        (st : SysState),
        (generateSummary msgs c sid booked (some (Except.error e)) now
          st).1 = "Summary generation failed. Conversation details saved." ∧
        (generateSummary msgs c sid booked (some (Except.error e)) now
          st).2.db = st.db) := by
  constructor
  · intro now w h
    unfold generateAndEmitSummary
    simp [h]
  · intro msgs c sid booked e now st
    unfold generateSummary
    simp [addCost]

/-- Witness for summary_finalizer_noop_and_fallback at concrete
inputs. -/
theorem summary_finalizer_noop_and_fallback_witness :
    (worldStart.agent.contactNumber = none ∧
      (generateAndEmitSummary 0 worldStart).sys = worldStart.sys) ∧
    (generateSummary [⟨"user", "hi"⟩] "c" "s" []
      (some (Except.error "down")) 0 ⟨dbUserStored, []⟩).2.db =
        (⟨dbUserStored, []⟩ : SysState).db :=
  ⟨⟨rfl, (summary_finalizer_noop_and_fallback.1 0 worldStart rfl).1⟩,
   (summary_finalizer_noop_and_fallback.2 [⟨"user", "hi"⟩] "c" "s" []
     "down" 0 ⟨dbUserStored, []⟩).2⟩

/-- Helper: a nonempty string has isEmpty false. -/
lemma isEmpty_false_of_ne {s : String} (h : s ≠ "") : s.isEmpty = false := by
  cases hs : s.isEmpty
  · rfl
  · exact absurd ((String.isEmpty_iff s).mp hs) h

/-- Helper: a nonempty string is truthy. -/
lemma jsTruthy_some_ne {s : String} (h : s ≠ "") :
    jsTruthy (some s) = true := by
  simp [jsTruthy, isEmpty_false_of_ne h]

/-- Helper: orNull keeps a nonempty string. -/
lemma orNull_some_ne {s : String} (h : s ≠ "") :
    orNull (some s) = some s := by
  unfold orNull
  rw [jsTruthy_some_ne h]
  rfl

/-- Helper: orNull of an absent argument is NULL. -/
lemma orNull_none : orNull none = none := rfl

/-- Helper: behaviour of createOrUpdateUser when the contact already has
a stored row (the ON CONFLICT DO UPDATE branch). -/
lemma createOrUpdateUser_found (contact : String) (name email : Option String)
    (now : Nat) (db : Db) (u0 : User)
    (hfind : db.users.find? (fun u => u.contact_number = contact) = some u0) :
    createOrUpdateUser (some contact) name email now db =
      Except.ok
        (⟨u0.contact_number, coalesce (orNull name) u0.name,
           coalesce (orNull email) u0.email, u0.created_at, now⟩,
         { db with users := db.users.map (fun u =>
             if u.contact_number = contact then
               ⟨u.contact_number, coalesce (orNull name) u.name,
                 coalesce (orNull email) u.email, u.created_at, now⟩
             else u) }) := by
  have hu0 : u0.contact_number = contact := by
    simpa using List.find?_some hfind
  unfold createOrUpdateUser
  simp [hfind, hu0]

/-- C5: identify_user is an idempotent upsert-merge on the stored user
record.  A repeat call with no name and no email returns the stored row
with only updated_at refreshed and leaves every stored identity field
(contact, name, email) unchanged; a call supplying only a (nonempty)
name rewrites exactly the name and preserves the stored email, and
symmetrically a supplied email preserves the stored name. -/
theorem identify_user_upsert_merge (db : Db) (c n e : String) (u0 : User)
    (now : Nat)
    (hfind : db.users.find? (fun u => u.contact_number = c) = some u0)
    (hn : n ≠ "") (he : e ≠ "") :
    (∃ db1, createOrUpdateUser (some c) none none now db =
        Except.ok ({ u0 with updated_at := now }, db1) ∧
      db1.users.map userFields = db.users.map userFields) ∧
    (∃ u1 db1, createOrUpdateUser (some c) (some n) none now db =
        Except.ok (u1, db1) ∧
      u1.name = some n ∧ u1.email = u0.email ∧
      db1.users.map userFields = db.users.map (fun v =>
        if v.contact_number = c then (v.contact_number, some n, v.email)
        else userFields v)) ∧
    (∃ u1 db1, createOrUpdateUser (some c) none (some e) now db =
        Except.ok (u1, db1) ∧
      u1.email = some e ∧ u1.name = u0.name ∧
      db1.users.map userFields = db.users.map (fun v =>
        if v.contact_number = c then (v.contact_number, v.name, some e)
        else userFields v)) := by
  have hA := createOrUpdateUser_found c none none now db u0 hfind
  have hN := createOrUpdateUser_found c (some n) none now db u0 hfind
  have hE := createOrUpdateUser_found c none (some e) now db u0 hfind
  simp only [orNull_none, orNull_some_ne hn, orNull_some_ne he, coalesce]
    at hA hN hE
  refine ⟨⟨_, hA, ?_⟩, ⟨_, _, hN, rfl, rfl, ?_⟩, ⟨_, _, hE, rfl, rfl, ?_⟩⟩
  · rw [List.map_map]
    refine List.map_congr_left ?_
    intro v _
    by_cases hv : v.contact_number = c <;> simp [userFields, hv, Function.comp]
  · rw [List.map_map]
    refine List.map_congr_left ?_
    intro v _
    by_cases hv : v.contact_number = c <;> simp [userFields, hv, Function.comp]
  · rw [List.map_map]
    refine List.map_congr_left ?_
    intro v _
    by_cases hv : v.contact_number = c <;> simp [userFields, hv, Function.comp]

/-- Witness for identify_user_upsert_merge on the concrete stored
user of dbUserStored. -/
theorem identify_user_upsert_merge_witness :
    dbUserStored.users.find? (fun u => u.contact_number = "c") =
      some ⟨"c", some "Dana", some "dana at example.com", 0, 0⟩ ∧
    (∃ db1, createOrUpdateUser (some "c") none none 5 dbUserStored =
        Except.ok
          ({ (⟨"c", some "Dana", some "dana at example.com", 0, 0⟩ : User)
              with updated_at := 5 }, db1) ∧
      db1.users.map userFields = dbUserStored.users.map userFields) :=
  ⟨by rfl,
   (identify_user_upsert_merge dbUserStored "c" "Riley" "riley at example.com"
     ⟨"c", some "Dana", some "dana at example.com", 0, 0⟩ 5 (by rfl)
     (by decide) (by decide)).1⟩

/-- C10: supplying the empty string for name or email at the
identify_user interface behaves exactly like leaving the field absent:
the empty string is mapped to SQL NULL before the upsert, so COALESCE
preserves the stored name and email, and only updated_at changes. -/
theorem identify_user_empty_string_preserved (db : Db) (c : String)
    (u0 : User) (now : Nat)
    (hfind : db.users.find? (fun u => u.contact_number = c) = some u0) :
    (∃ db1, createOrUpdateUser (some c) (some "") none now db =
        Except.ok ({ u0 with updated_at := now }, db1) ∧
      db1.users.map userFields = db.users.map userFields) ∧
    (∃ db1, createOrUpdateUser (some c) none (some "") now db =
        Except.ok ({ u0 with updated_at := now }, db1) ∧
      db1.users.map userFields = db.users.map userFields) ∧
    (∃ db1, createOrUpdateUser (some c) (some "") (some "") now db =
        Except.ok ({ u0 with updated_at := now }, db1) ∧
      db1.users.map userFields = db.users.map userFields) := by
  have hor : orNull (some "") = none := rfl
  have h1 := createOrUpdateUser_found c (some "") none now db u0 hfind
  have h2 := createOrUpdateUser_found c none (some "") now db u0 hfind
  have h3 := createOrUpdateUser_found c (some "") (some "") now db u0 hfind
  simp only [hor, orNull_none, coalesce] at h1 h2 h3
  refine ⟨⟨_, h1, ?_⟩, ⟨_, h2, ?_⟩, ⟨_, h3, ?_⟩⟩ <;>
  · rw [List.map_map]
    refine List.map_congr_left ?_
    intro v _
    by_cases hv : v.contact_number = c <;> simp [userFields, hv, Function.comp]

/-- Witness for identify_user_empty_string_preserved on the concrete
stored user of dbUserStored. -/
theorem identify_user_empty_string_preserved_witness :
    dbUserStored.users.find? (fun u => u.contact_number = "c") =
      some ⟨"c", some "Dana", some "dana at example.com", 0, 0⟩ ∧
    (∃ db1, createOrUpdateUser (some "c") (some "") none 5 dbUserStored =
        Except.ok
          ({ (⟨"c", some "Dana", some "dana at example.com", 0, 0⟩ : User)
              with updated_at := 5 }, db1) ∧
      db1.users.map userFields = dbUserStored.users.map userFields) :=
  ⟨by rfl,
   (identify_user_empty_string_preserved dbUserStored "c"
     ⟨"c", some "Dana", some "dana at example.com", 0, 0⟩ 5 (by rfl)).1⟩

/-- Helper: every envelope returned (rather than thrown) by the try
block of executeTool is a success envelope with no error field. -/
lemma executeToolAttempt_ok_envelope (tc : ToolCall) (now : Nat)
    (st : SysState) (r : ToolResult)
    (h : (executeToolAttempt tc now st).1 = Except.ok r) :
    r.success = true ∧ r.error = none := by
  unfold executeToolAttempt at h
  split at h <;> dsimp only at h <;>
    (try split at h) <;>
    first
      | (cases h; exact ⟨rfl, rfl⟩)
      | simp_all

/-- Helper: the catch boundary of executeTool returns exactly the state
produced by the try block. -/
lemma executeTool_state (tc : ToolCall) (now : Nat) (st : SysState) :
    (executeTool tc now st).2 = (executeToolAttempt tc now st).2 := by
  unfold executeTool
  cases hA : executeToolAttempt tc now st with
  | mk res stA => cases res <;> simp

/-- C6: executeTool always returns a uniform envelope and never lets a
failure escape: either the try block returned a success envelope (with
no error field) and executeTool passes it through, or the try block
threw some error e — including the unknown-operation case — and
executeTool converts it into the failure envelope carrying exactly that
message; in both cases the resulting state is the try block's state. -/
theorem dispatcher_uniform_envelope (tc : ToolCall) (now : Nat)
    (st : SysState) :
    (executeTool tc now st).2 = (executeToolAttempt tc now st).2 ∧
    (((executeTool tc now st).1.success = true ∧
        (executeTool tc now st).1.error = none ∧
        (executeToolAttempt tc now st).1 =
          Except.ok (executeTool tc now st).1) ∨
      (∃ e, (executeToolAttempt tc now st).1 = Except.error e ∧
        (executeTool tc now st).1 =
          { success := false, error := some e })) := by
  refine ⟨executeTool_state tc now st, ?_⟩
  cases hA : executeToolAttempt tc now st with
  | mk res stA =>
    cases res with
    | ok r =>
      have hfields := executeToolAttempt_ok_envelope tc now st r (by rw [hA])
      have hT : executeTool tc now st = (r, stA) := by
        unfold executeTool
        rw [hA]
      left
      rw [hT]
      exact ⟨hfields.1, hfields.2, rfl⟩
    | error e =>
      have hT : executeTool tc now st =
          ({ success := false, error := some e }, stA) := by
        unfold executeTool
        rw [hA]
      right
      exact ⟨e, rfl, by rw [hT]⟩

/-- Helper: folding cost addition over a ledger from any accumulator. -/
lemma foldl_add_cost (cs : List CostBreakdown) (a : Rat) :
    cs.foldl (fun sum item => sum + item.cost) a =
      a + (cs.map (fun i => i.cost)).sum := by
  induction cs generalizing a with
  | nil => simp
  | cons c rest ih => simp [ih, add_assoc]

/-- Helper: getTotalCost equals the arithmetic sum of the entry costs. -/
lemma getTotalCost_eq_sum (cs : List CostBreakdown) :
    getTotalCost cs = (cs.map (fun i => i.cost)).sum := by
  unfold getTotalCost
  rw [foldl_add_cost]
  simp

/-- Helper: the try block of executeTool appends exactly one cost entry,
tagged with the dispatched operation name, for every cataloged
operation, whether the operation then succeeds or throws. -/
lemma executeToolAttempt_cost (name : String) (args : Args) (now : Nat)
    (st : SysState) (h : name ∈ catalogNames) :
    (executeToolAttempt ⟨name, args⟩ now st).2.costTracker =
      st.costTracker ++ [⟨name, toolCost name, "call"⟩] := by
  simp only [catalogNames, List.mem_cons, List.not_mem_nil, or_false] at h
  rcases h with h|h|h|h|h|h|h <;> subst h <;>
    (unfold executeToolAttempt; dsimp only) <;>
    split <;> (try split) <;> simp_all [addCost, toolCost]

/-- C7: every dispatch of a cataloged operation appends exactly one cost
entry to the ledger, tagged with that operation's name (and billed at
the operation's fixed rate), regardless of whether the operation
succeeds or fails; and at any observation point getTotalCost equals the
arithmetic sum of the costs of all entries appended so far. -/
theorem dispatch_appends_one_cost_entry (tc : ToolCall) (now : Nat)
    (st : SysState) (h : tc.name ∈ catalogNames) :
    (executeTool tc now st).2.costTracker =
      st.costTracker ++ [⟨tc.name, toolCost tc.name, "call"⟩] ∧
    ∀ cs : List CostBreakdown,
      getTotalCost cs = (cs.map (fun i => i.cost)).sum := by
  refine ⟨?_, fun cs => getTotalCost_eq_sum cs⟩
  obtain ⟨name, args⟩ := tc
  rw [executeTool_state]
  exact executeToolAttempt_cost name args now st h

/-- Witness for dispatch_appends_one_cost_entry: a concrete fetch_slots
dispatch over the empty state appends exactly its own entry. -/
theorem dispatch_appends_one_cost_entry_witness :
    ("fetch_slots" ∈ catalogNames) ∧
    (executeTool ⟨"fetch_slots", {}⟩ 0 ⟨dbEmpty, []⟩).2.costTracker =
      ([] : List CostBreakdown) ++
        [⟨"fetch_slots", toolCost "fetch_slots", "call"⟩] ∧
    getTotalCost [⟨"fetch_slots", toolCost "fetch_slots", "call"⟩] =
      (([⟨"fetch_slots", toolCost "fetch_slots", "call"⟩] :
          List CostBreakdown).map (fun i => i.cost)).sum :=
  ⟨by decide,
   (dispatch_appends_one_cost_entry ⟨"fetch_slots", {}⟩ 0 ⟨dbEmpty, []⟩
     (by decide)).1,
   (dispatch_appends_one_cost_entry ⟨"fetch_slots", {}⟩ 0 ⟨dbEmpty, []⟩
     (by decide)).2 [⟨"fetch_slots", toolCost "fetch_slots", "call"⟩]⟩

/-- Helper: everything a successful createAppointment guarantees: the
conflict pre-check passed, the new row is appended, it is confirmed, and
it sits at exactly the requested slot. -/
lemma createAppointment_ok_spec {contact d t svc n : Option String}
    {now : Nat} {db : Db} {a : Appointment} {db' : Db}
    (h : createAppointment contact d t svc n now db = Except.ok (a, db')) :
    conflictCheck d t db = false ∧
    db'.appointments = db.appointments ++ [a] ∧
    a.status = Status.confirmed ∧
    d = some a.appointment_date ∧ t = some a.appointment_time := by
  unfold createAppointment at h
  split at h
  · simp_all
  · next hcc =>
    split at h
    · split at h
      · simp_all
      · split at h
        · simp_all
        · cases h
          exact ⟨by simp_all, by simp, rfl, rfl, rfl⟩
    · simp_all

/-- Helper: the conflict pre-check with both slot fields present is
exactly the confirmed-slot test. -/
lemma conflictCheck_some (d t : String) (db : Db) :
    conflictCheck (some d) (some t) db = hasConfirmedAt d t db := by
  unfold conflictCheck hasConfirmedAt
  congr 1
  funext r
  rw [decide_eq_decide]
  simp

/-- Helper: booking a slot that already holds a confirmed appointment
fails with the conflict error. -/
lemma book_at_slot_fails {d t : String} {db : Db}
    (h : hasConfirmedAt d t db = true) (c svc n : Option String)
    (now : Nat) :
    createAppointment c (some d) (some t) svc n now db =
      Except.error "Appointment slot already booked" := by
  unfold createAppointment
  rw [conflictCheck_some, h]
  rfl

/-- Helper: a confirmed slot stays confirmed across any successful
createAppointment (rows are only appended). -/
lemma hasConfirmedAt_mono {d t : String} {contact dd tt svc n : Option String}
    {now : Nat} {db : Db} {a : Appointment} {db' : Db}
    (h : hasConfirmedAt d t db = true)
    (hc : createAppointment contact dd tt svc n now db =
      Except.ok (a, db')) :
    hasConfirmedAt d t db' = true := by
  obtain ⟨-, happ, -, -, -⟩ := createAppointment_ok_spec hc
  unfold hasConfirmedAt at h ⊢
  rw [happ, List.any_append, h]
  rfl

/-- Helper: a successful booking aimed at slot (d, t) leaves that slot
confirmed. -/
lemma book_success_confirms {d t : String} {contact svc n : Option String}
    {now : Nat} {db : Db} {a : Appointment} {db' : Db}
    (hc : createAppointment contact (some d) (some t) svc n now db =
      Except.ok (a, db')) :
    hasConfirmedAt d t db' = true := by
  obtain ⟨-, happ, hst, hd, ht⟩ := createAppointment_ok_spec hc
  unfold hasConfirmedAt
  rw [happ, List.any_append]
  have hd' : a.appointment_date = d := by injection hd.symm
  have ht' : a.appointment_time = t := by injection ht.symm
  simp [hd', ht', hst]

/-- Helper: once the slot is confirmed, no later book_appointment call in
a sequence succeeds at it, and it stays confirmed. -/
lemma runBooksCount_zero_of_confirmed (d t : String) (calls : List BookCall)
    (db : Db) (h : hasConfirmedAt d t db = true) :
    (runBooksCount d t calls db).1 = 0 ∧
    hasConfirmedAt d t (runBooksCount d t calls db).2 = true := by
  induction calls generalizing db with
  | nil => exact ⟨rfl, h⟩
  | cons c rest ih =>
    unfold runBooksCount
    cases hc : createAppointment c.contact c.date c.time c.service_type
        c.notes c.now db with
    | error e => exact ih db h
    | ok out =>
      obtain ⟨a, db'⟩ := out
      by_cases hcond : c.date = some d ∧ c.time = some t
      · rw [hcond.1, hcond.2] at hc
        rw [book_at_slot_fails h c.contact c.service_type c.notes c.now]
          at hc
        cases hc
      · have h' := hasConfirmedAt_mono h hc
        have := ih db' h'
        simp only [hcond, if_false]
        exact ⟨this.1, this.2⟩

/-- Helper: in any sequence of book_appointment calls, at most one call
aimed at a fixed (date, time) slot succeeds. -/
lemma runBooksCount_le_one (d t : String) (calls : List BookCall)
    (db : Db) : (runBooksCount d t calls db).1 ≤ 1 := by
  induction calls generalizing db with
  | nil => exact Nat.zero_le 1
  | cons c rest ih =>
    unfold runBooksCount
    cases hc : createAppointment c.contact c.date c.time c.service_type
        c.notes c.now db with
    | error e => exact ih db
    | ok out =>
      obtain ⟨a, db'⟩ := out
      by_cases hcond : c.date = some d ∧ c.time = some t
      · have hc' := hc
        rw [hcond.1, hcond.2] at hc'
        have hconf := book_success_confirms hc'
        have hzero := (runBooksCount_zero_of_confirmed d t rest db' hconf).1
        simp [hcond, hzero]
      · simp only [hcond, if_false]
        exact ih db'

/-- Helper: an unconfirmed slot holds no confirmed rows. -/
lemma confirmedAt_nil_of_not_has {d t : String} {db : Db}
    (h : hasConfirmedAt d t db = false) : confirmedAt d t db = [] := by
  unfold hasConfirmedAt at h
  unfold confirmedAt
  rw [List.any_eq_false] at h
  rw [List.filter_eq_nil_iff]
  exact h

/-- Helper: a successful createAppointment preserves the central
slot-exclusivity invariant. -/
lemma createAppointment_preserves_inv {contact d t svc n : Option String}
    {now : Nat} {db : Db} {a : Appointment} {db' : Db}
    (hinv : SlotInvariant db)
    (h : createAppointment contact d t svc n now db = Except.ok (a, db')) :
    SlotInvariant db' := by
  obtain ⟨hcc, happ, hst, hd, ht⟩ := createAppointment_ok_spec h
  intro d' t'
  unfold confirmedAt
  rw [happ, List.filter_append]
  by_cases hslot : a.appointment_date = d' ∧ a.appointment_time = t'
  · have hccf : hasConfirmedAt d' t' db = false := by
      rw [← hslot.1, ← hslot.2, ← conflictCheck_some, ← hd, ← ht]
      exact hcc
    have hnil : confirmedAt d' t' db = [] := confirmedAt_nil_of_not_has hccf
    unfold confirmedAt at hnil
    rw [hnil, List.nil_append]
    calc (List.filter (fun r =>
          decide (r.appointment_date = d' ∧ r.appointment_time = t' ∧
            r.status = Status.confirmed)) [a]).length
        ≤ [a].length := List.length_filter_le _ _
      _ ≤ 1 := by simp
  · have : ([a].filter (fun r =>
        decide (r.appointment_date = d' ∧ r.appointment_time = t' ∧
          r.status = Status.confirmed))) = [] := by
      simp only [List.filter_eq_nil_iff]
      intro r hr
      simp only [List.mem_singleton] at hr
      subst hr
      simp only [decide_eq_true_eq]
      intro hp
      exact hslot ⟨hp.1, hp.2.1⟩
    rw [this, List.append_nil]
    exact hinv d' t'

/-- Helper: every sequence of book_appointment calls preserves the
slot-exclusivity invariant. -/
lemma runBooksCount_preserves_inv (d t : String) (calls : List BookCall)
    (db : Db) (hinv : SlotInvariant db) :
    SlotInvariant (runBooksCount d t calls db).2 := by
  induction calls generalizing db with
  | nil => exact hinv
  | cons c rest ih =>
    unfold runBooksCount
    cases hc : createAppointment c.contact c.date c.time c.service_type
        c.notes c.now db with
    | error e => exact ih db hinv
    | ok out =>
      obtain ⟨a, db'⟩ := out
      exact ih db' (createAppointment_preserves_inv hinv hc)

/-- C1: booking is slot-exclusive.  In every sequence of
book_appointment calls, at most one call aimed at a given (date, time)
succeeds; the slot-exclusivity invariant (at most one confirmed
appointment per slot) is preserved across the whole sequence; and while
a confirmed appointment holds the slot, a book_appointment dispatch for
it returns the failure envelope carrying the conflict error
"Appointment slot already booked" and leaves the store unchanged. -/
theorem booking_slot_exclusivity (d t : String) (calls : List BookCall)
    (db : Db) (hinv : SlotInvariant db) :
    (runBooksCount d t calls db).1 ≤ 1 ∧
    SlotInvariant (runBooksCount d t calls db).2 ∧
    (∀ (args : Args) (now : Nat) (st : SysState),
      st.db = db → args.appointment_date = some d →
      args.appointment_time = some t → hasConfirmedAt d t db = true →
      (executeTool ⟨"book_appointment", args⟩ now st).1 =
        { success := false,
          error := some "Appointment slot already booked" } ∧
      (executeTool ⟨"book_appointment", args⟩ now st).2.db = db) := by
  refine ⟨runBooksCount_le_one d t calls db,
    runBooksCount_preserves_inv d t calls db hinv, ?_⟩
  intro args now st hst hd ht hhas
  have hfail : createAppointment args.contact_number args.appointment_date
      args.appointment_time args.service_type args.notes now st.db =
      Except.error "Appointment slot already booked" := by
    rw [hd, ht, hst]
    exact book_at_slot_fails hhas args.contact_number args.service_type
      args.notes now
  have hatt : executeToolAttempt ⟨"book_appointment", args⟩ now st =
      (Except.error "Appointment slot already booked",
       addCost "book_appointment" (1 / 500 : Rat) "call" st) := by
    unfold executeToolAttempt
    dsimp only
    split <;> simp_all [addCost]
  have hT : executeTool ⟨"book_appointment", args⟩ now st =
      ({ success := false,
         error := some "Appointment slot already booked" },
       addCost "book_appointment" (1 / 500 : Rat) "call" st) := by
    unfold executeTool
    rw [hatt]
  rw [hT]
  exact ⟨rfl, by simp [addCost, hst]⟩

/-- Witness for booking_slot_exclusivity: two identical book calls for
the same slot over the one-user store, of which exactly one may
succeed. -/
theorem booking_slot_exclusivity_witness :
    SlotInvariant dbUserA ∧
    (runBooksCount "2024-01-15" "09:00"
      [⟨some "a", some "2024-01-15", some "09:00", none, none, 0⟩,
       ⟨some "a", some "2024-01-15", some "09:00", none, none, 0⟩]
      dbUserA).1 ≤ 1 :=
  have hinv : SlotInvariant dbUserA := fun d t => by
    simp [confirmedAt, dbUserA]
  ⟨hinv,
   (booking_slot_exclusivity "2024-01-15" "09:00"
     [⟨some "a", some "2024-01-15", some "09:00", none, none, 0⟩,
      ⟨some "a", some "2024-01-15", some "09:00", none, none, 0⟩]
     dbUserA hinv).1⟩

/-- C2 (amended): when BOTH a new date and a new time are supplied,
modify_appointment is conflict-checked against other confirmed
appointments: if some other confirmed appointment occupies the requested
slot, the dispatch returns the failure envelope with the conflict error
"New appointment slot already booked" and the store is left completely
unchanged.  (With only one of the two fields supplied, no conflict check
happens at all — see the counterexample.) -/
theorem modify_both_fields_conflict_rejected (st : SysState) (args : Args)
    (now : Nat) (nd nt : String) (aid : Nat)
    (hd : args.new_date = some nd) (ht : args.new_time = some nt)
    (hnd : nd ≠ "") (hnt : nt ≠ "") (hid : args.appointment_id = some aid)
    (hconf : ∃ r ∈ st.db.appointments, r.appointment_date = nd ∧
      r.appointment_time = nt ∧ r.status = Status.confirmed ∧ r.id ≠ aid) :
    (executeTool ⟨"modify_appointment", args⟩ now st).1 =
      { success := false,
        error := some "New appointment slot already booked" } ∧
    (executeTool ⟨"modify_appointment", args⟩ now st).2.db = st.db := by
  have h1 : jsTruthy args.new_date = true := by
    rw [hd]
    exact jsTruthy_some_ne hnd
  have h2 : jsTruthy args.new_time = true := by
    rw [ht]
    exact jsTruthy_some_ne hnt
  have h3 : modifyConflictCheck args.new_date args.new_time
      args.appointment_id st.db = true := by
    unfold modifyConflictCheck
    rw [List.any_eq_true]
    obtain ⟨r, hr, hrd, hrt, hrs, hrid⟩ := hconf
    refine ⟨r, hr, ?_⟩
    rw [hd, ht, hid]
    simp [hrd, hrt, hrs, hrid]
  have hmod : modifyAppointment args.appointment_id args.contact_number
      args.new_date args.new_time now st.db =
      Except.error "New appointment slot already booked" := by
    unfold modifyAppointment
    simp [h1, h2, h3]
  have hatt : executeToolAttempt ⟨"modify_appointment", args⟩ now st =
      (Except.error "New appointment slot already booked",
       addCost "modify_appointment" (1 / 500 : Rat) "call" st) := by
    unfold executeToolAttempt
    dsimp only
    split <;> simp_all [addCost]
  have hT : executeTool ⟨"modify_appointment", args⟩ now st =
      ({ success := false,
         error := some "New appointment slot already booked" },
       addCost "modify_appointment" (1 / 500 : Rat) "call" st) := by
    unfold executeTool
    rw [hatt]
  rw [hT]
  exact ⟨rfl, by simp [addCost]⟩

/-- Witness for modify_both_fields_conflict_rejected: moving the second
appointment of dbTwoConfirmed onto the slot held by the first is
rejected and changes nothing. -/
theorem modify_both_fields_conflict_rejected_witness :
    (∃ r ∈ (⟨dbTwoConfirmed, []⟩ : SysState).db.appointments,
      r.appointment_date = "2024-01-15" ∧ r.appointment_time = "09:00" ∧
      r.status = Status.confirmed ∧ r.id ≠ 2) ∧
    (executeTool ⟨"modify_appointment",
        { contact_number := some "b", appointment_id := some 2,
          new_date := some "2024-01-15", new_time := some "09:00" }⟩ 1
      ⟨dbTwoConfirmed, []⟩).1 =
      { success := false,
        error := some "New appointment slot already booked" } ∧
    (executeTool ⟨"modify_appointment",
        { contact_number := some "b", appointment_id := some 2,
          new_date := some "2024-01-15", new_time := some "09:00" }⟩ 1
      ⟨dbTwoConfirmed, []⟩).2.db = (⟨dbTwoConfirmed, []⟩ : SysState).db :=
  ⟨by decide,
   (modify_both_fields_conflict_rejected ⟨dbTwoConfirmed, []⟩
     { contact_number := some "b", appointment_id := some 2,
       new_date := some "2024-01-15", new_time := some "09:00" } 1
     "2024-01-15" "09:00" 2 rfl rfl (by decide) (by decide) rfl
     (by decide)).1,
   (modify_both_fields_conflict_rejected ⟨dbTwoConfirmed, []⟩
     { contact_number := some "b", appointment_id := some 2,
       new_date := some "2024-01-15", new_time := some "09:00" } 1
     "2024-01-15" "09:00" 2 rfl rfl (by decide) (by decide) rfl
     (by decide)).2⟩

/-- Helper: the UPDATE of modifyAppointment never changes any row's id
or status. -/
lemma modifyApply_statusKey (aid : Option Nat) (contact : Option String)
    (nd nt : Option String) (now : Nat) (db : Db) :
    (modifyAppointment.modifyApply aid contact nd nt now
      db).2.appointments.map statusKey = db.appointments.map statusKey := by
  unfold modifyAppointment.modifyApply
  cases hf : db.appointments.find? (cancelMatches aid contact) with
  | none => rfl
  | some r0 =>
    dsimp only
    rw [List.map_map]
    refine List.map_congr_left ?_
    intro r _
    by_cases hm : cancelMatches aid contact r = true <;>
      simp [Function.comp, hm, statusKey, modifyUpdate]

/-- Helper: a successful modifyAppointment leaves every stored row's id
and status unchanged. -/
lemma modifyAppointment_ok_statusKey {aid : Option Nat}
    {contact nd nt : Option String} {now : Nat} {db : Db}
    {res : Option Appointment} {db' : Db}
    (h : modifyAppointment aid contact nd nt now db = Except.ok (res, db')) :
    db'.appointments.map statusKey = db.appointments.map statusKey := by
  unfold modifyAppointment at h
  split at h
  · split at h
    · cases h
    · injection h with h'
      have h2 := congrArg Prod.snd h'
      dsimp only at h2
      rw [← h2]
      exact modifyApply_statusKey aid contact nd nt now db
  · split at h
    · cases h
    · injection h with h'
      have h2 := congrArg Prod.snd h'
      dsimp only at h2
      rw [← h2]
      exact modifyApply_statusKey aid contact nd nt now db

/-- Helper: cancelAppointment rewrites a stored row owned by the caller
to cancelled, whatever its current status. -/
lemma cancel_member_cancelled {db : Db} {r : Appointment} (now : Nat)
    (hr : r ∈ db.appointments) :
    ({ r with status := Status.cancelled, updated_at := now } :
      Appointment) ∈
      (cancelAppointment (some r.id) (some r.contact_number) now
        db).2.appointments := by
  have hm : cancelMatches (some r.id) (some r.contact_number) r = true := by
    simp [cancelMatches]
  unfold cancelAppointment
  cases hf : db.appointments.find?
      (cancelMatches (some r.id) (some r.contact_number)) with
  | none =>
    exfalso
    have := List.find?_eq_none.mp hf r hr
    rw [hm] at this
    exact this rfl
  | some r0 =>
    dsimp only
    exact List.mem_map.mpr ⟨r, hr, by rw [hm]; rfl⟩

/-- C4 (amended): book_appointment only ever appends a fresh confirmed
row and modify_appointment never changes any row's status, so neither
moves a completed appointment out of completed; cancel_appointment,
however, has no status guard: applied to a completed appointment owned
by the caller it rewrites that appointment to cancelled (see the
counterexample), so completed is terminal for book and modify but not
for cancel. -/
theorem completed_status_terminal_except_cancel :
    (∀ (contact d t svc n : Option String) (now : Nat) (db : Db)
        (a : Appointment) (db' : Db),
        createAppointment contact d t svc n now db = Except.ok (a, db') →
        db'.appointments.map statusKey =
          db.appointments.map statusKey ++ [(a.id, Status.confirmed)]) ∧
    (∀ (aid : Option Nat) (contact nd nt : Option String) (now : Nat)
        (db : Db) (res : Option Appointment) (db' : Db),
        modifyAppointment aid contact nd nt now db = Except.ok (res, db') →
        db'.appointments.map statusKey = db.appointments.map statusKey) ∧
    (∀ (db : Db) (r : Appointment) (now : Nat), r ∈ db.appointments →
        r.status = Status.completed →
        ({ r with status := Status.cancelled, updated_at := now } :
          Appointment) ∈
          (cancelAppointment (some r.id) (some r.contact_number) now
            db).2.appointments) := by
  refine ⟨?_, ?_, ?_⟩
  · intro contact d t svc n now db a db' h
    obtain ⟨-, happ, hst, -, -⟩ := createAppointment_ok_spec h
    rw [happ, List.map_append]
    simp [statusKey, hst]
  · intro aid contact nd nt now db res db' h
    exact modifyAppointment_ok_statusKey h
  · intro db r now hr _hcomp
    exact cancel_member_cancelled now hr

/-- Witness for completed_status_terminal_except_cancel at concrete
stores: a concrete booking, a concrete date-only modification, and the
cancellation of the completed appointment of dbCompleted. -/
theorem completed_status_terminal_except_cancel_witness :
    ((⟨[⟨"a", none, none, 0, 0⟩],
        [⟨1, "a", "2024-01-15", "09:00", none, none, Status.confirmed, 0, 0⟩],
        2, []⟩ : Db).appointments.map statusKey =
      dbUserA.appointments.map statusKey ++ [(1, Status.confirmed)]) ∧
    ((⟨[⟨"c", none, none, 0, 0⟩],
        [⟨1, "c", "2024-01-20", "09:00", none, none, Status.cancelled, 0, 1⟩],
        2, []⟩ : Db).appointments.map statusKey =
      dbCancelled.appointments.map statusKey) ∧
    (({ (⟨1, "c", "2024-01-15", "09:00", none, none, Status.completed, 0,
          0⟩ : Appointment) with
        status := Status.cancelled, updated_at := 1 } : Appointment) ∈
      (cancelAppointment (some 1) (some "c") 1
        dbCompleted).2.appointments) :=
  ⟨completed_status_terminal_except_cancel.1 (some "a") (some "2024-01-15")
     (some "09:00") none none 0 dbUserA
     ⟨1, "a", "2024-01-15", "09:00", none, none, Status.confirmed, 0, 0⟩
     ⟨[⟨"a", none, none, 0, 0⟩],
       [⟨1, "a", "2024-01-15", "09:00", none, none, Status.confirmed, 0, 0⟩],
       2, []⟩ (by decide),
   completed_status_terminal_except_cancel.2.1 (some 1) (some "c")
     (some "2024-01-20") none 1 dbCancelled
     (some ⟨1, "c", "2024-01-20", "09:00", none, none, Status.cancelled, 0, 1⟩)
     ⟨[⟨"c", none, none, 0, 0⟩],
       [⟨1, "c", "2024-01-20", "09:00", none, none, Status.cancelled, 0, 1⟩],
       2, []⟩ (by decide),
   completed_status_terminal_except_cancel.2.2 dbCompleted
     ⟨1, "c", "2024-01-15", "09:00", none, none, Status.completed, 0, 0⟩ 1
     (by decide) rfl⟩

end SuperBryn
